import Mathlib

/-!
Shallow embedding of the log-compass-dashboard streaming pipeline.

Source layout:
* `src/hooks/useWebSocket.ts` (the hook variant with URL validation,
  buffering and throttled flushing): connection lifecycle, the
  `onmessage` decode path, the pending-queue flush (`processLogBuffer`),
  pause/resume and the reconnect policy.
* `src/components/LogDashboard.tsx`: session registry, level/search
  filtering, per-level counts, and localStorage persistence of the
  level filters.
* `src/types/log.ts`: the record and session shapes.

JavaScript runtime values that flow through `JSON.parse` are modelled by
the inductive `JsValue`; `JSON.parse` itself is an external library
function, so call sites that branch on its outcome take the outcome
(`Option JsValue`: `none` models a thrown exception) as an argument.
React `setState` calls issued inside one synchronous handler are batched
by React, so the embedding of such a handler returns the final observable
state of the handler.
-/

namespace LogCompass

/-- JavaScript JSON values (the possible results of `JSON.parse`).
Numbers are modelled as integers: the pipeline only ever constructs the
literal `0`, and no claim depends on non-integral numbers. -/
inductive JsValue where
  | null : JsValue
  | bool : Bool → JsValue
  | num : Int → JsValue
  | str : String → JsValue
  | obj : List (String × JsValue) → JsValue

mutual

/-- Decidable equality on JSON values (the derive handler does not
support nested inductives, so it is spelled out). -/
def JsValue.decEq : (a b : JsValue) → Decidable (a = b)
  | .null, .null => isTrue rfl
  | .bool a, .bool b =>
    if h : a = b then isTrue (by rw [h]) else isFalse (by intro hh; cases hh; exact h rfl)
  | .num a, .num b =>
    if h : a = b then isTrue (by rw [h]) else isFalse (by intro hh; cases hh; exact h rfl)
  | .str a, .str b =>
    if h : a = b then isTrue (by rw [h]) else isFalse (by intro hh; cases hh; exact h rfl)
  | .obj fs, .obj gs =>
    match JsValue.decEqFields fs gs with
    | isTrue h => isTrue (by rw [h])
    | isFalse h => isFalse (by intro hh; cases hh; exact h rfl)
  | .null, .bool _ => isFalse nofun
  | .null, .num _ => isFalse nofun
  | .null, .str _ => isFalse nofun
  | .null, .obj _ => isFalse nofun
  | .bool _, .null => isFalse nofun
  | .bool _, .num _ => isFalse nofun
  | .bool _, .str _ => isFalse nofun
  | .bool _, .obj _ => isFalse nofun
  | .num _, .null => isFalse nofun
  | .num _, .bool _ => isFalse nofun
  | .num _, .str _ => isFalse nofun
  | .num _, .obj _ => isFalse nofun
  | .str _, .null => isFalse nofun
  | .str _, .bool _ => isFalse nofun
  | .str _, .num _ => isFalse nofun
  | .str _, .obj _ => isFalse nofun
  | .obj _, .null => isFalse nofun
  | .obj _, .bool _ => isFalse nofun
  | .obj _, .num _ => isFalse nofun
  | .obj _, .str _ => isFalse nofun

/-- Decidable equality on JSON object field lists. -/
def JsValue.decEqFields :
    (a b : List (String × JsValue)) → Decidable (a = b)
  | [], [] => isTrue rfl
  | [], _ :: _ => isFalse nofun
  | _ :: _, [] => isFalse nofun
  | (k, v) :: fs, (k2, v2) :: gs =>
    if hk : k = k2 then
      match JsValue.decEq v v2 with
      | isTrue hv =>
        match JsValue.decEqFields fs gs with
        | isTrue ht => isTrue (by rw [hk, hv, ht])
        | isFalse ht => isFalse (by intro hh; injection hh with h1 h2; exact ht h2)
      | isFalse hv =>
        isFalse (by
          intro hh; injection hh with h1 h2
          injection h1 with ha hb; exact hv hb)
    else
      isFalse (by
        intro hh; injection hh with h1 h2
        injection h1 with ha hb; exact hk ha)

end

instance : DecidableEq JsValue := JsValue.decEq

/-- Field lookup on a JSON object (`v[k]`); `none` on non-objects or
missing keys. -/
def JsValue.getField : JsValue → String → Option JsValue
  | .obj fields, k => fields.lookup k
  | _, _ => none

/-! ## Connection Manager: `useWebSocket` wire layer

State of the hook's mutable refs that the `onmessage` path touches:
`isPaused`, `processingRef`, `logBufferRef` (pending queue, arrival
order) and the `logs` state (visible list, newest batch first). -/

structure WireState where
  paused : Bool
  processing : Bool
  buffer : List JsValue
  logs : List JsValue
  deriving DecidableEq

/-- The placeholder record synthesized in the `catch` branch of
`socket.onmessage` when `JSON.parse(event.data)` throws (`now` is
`new Date().toISOString()` at receipt, `raw` is `event.data`). -/
def placeholderRecord (now raw : String) : JsValue :=
  .obj [("time", .str now),
        ("level", .str "ERROR"),
        ("message", .str ("Failed to parse log: " ++ raw)),
        ("name", .str "websocket"),
        ("function", .str "onmessage"),
        ("line", .num 0)]

/-- The record that `socket.onmessage` pushes onto `logBufferRef` for a
frame: the parsed value itself when `JSON.parse` succeeded (it is cast
`as LogMessage` without any shape validation), the placeholder when it
threw. -/
def pushedRecord (parsed : Option JsValue) (now raw : String) : JsValue :=
  match parsed with
  | some v => v
  | none => placeholderRecord now raw

/-- The list of records `socket.onmessage` forwards to the pending queue
for one inbound frame: none at all when `isPaused.current` (the handler
returns before touching the buffer), otherwise exactly one `pushedRecord`. -/
def forwardedOnMessage (paused : Bool) (parsed : Option JsValue)
    (now raw : String) : List JsValue :=
  if paused then [] else [pushedRecord parsed now raw]

/-- Embeds `processLogBuffer`: returns unchanged if a flush is in progress, the
hook is paused, or the queue is empty; otherwise sets the in-progress
flag and moves the whole queue in front of the visible list
(`setLogs(prev => [...newLogs, ...prev])`). The `setTimeout` completion
is the separate event `flushTimerDone`. -/
def processLogBuffer (s : WireState) : WireState :=
  if s.processing || s.paused || s.buffer.isEmpty then s
  else { s with processing := true, logs := s.buffer ++ s.logs, buffer := [] }

/-- The `setTimeout` callback at the end of a flush cycle: clears the
in-progress flag, then re-runs `processLogBuffer` if the queue refilled. -/
def flushTimerDone (s : WireState) : WireState :=
  let s1 : WireState := { s with processing := false }
  if s1.buffer.isEmpty then s1 else processLogBuffer s1

/-- Embeds `socket.onmessage`: returns immediately while paused; otherwise
pushes the (parsed or placeholder) record onto the pending queue and
triggers `processLogBuffer` when no flush is in progress. -/
def onMessage (s : WireState) (parsed : Option JsValue) (now raw : String) :
    WireState :=
  if s.paused then s
  else
    let s1 : WireState := { s with buffer := s.buffer ++ [pushedRecord parsed now raw] }
    if s1.processing then s1 else processLogBuffer s1

/-- Embeds `togglePause`: flips the paused flag (and returns the new value). -/
def togglePauseW (s : WireState) : WireState :=
  { s with paused := !s.paused }

/-- Embeds `clearLogs`: empties the visible list and the pending queue. -/
def clearLogsW (s : WireState) : WireState :=
  { s with logs := [], buffer := [] }

/-! ## Connection Manager: `connect` and the reconnect policy -/

inductive ConnectionStatus where
  | connecting | connected | disconnected
  deriving DecidableEq, Repr

/-- Embeds JavaScript `String.prototype.startsWith`, over the underlying
characters. -/
def leadsWith : List Char → List Char → Bool
  | [], _ => true
  | _ :: _, [] => false
  | a :: as, b :: bs => a == b && leadsWith as bs

/-- JavaScript `s.startsWith(pat)`. -/
def startsWithStr (s pat : String) : Bool := leadsWith pat.data s.data

/-- The URL-scheme check of `connect`:
`url.startsWith('ws://') || url.startsWith('wss://')`. -/
def validWsUrl (url : String) : Bool :=
  startsWithStr url "ws://" || startsWithStr url "wss://"

/-- Observable outcome of one synchronous `connect(url)` call: the final
connection status and error message after React batches the handler's
`setStatus`/`setErrorMessage` calls, and whether `new WebSocket(url)`
was constructed. -/
structure ConnectOutcome where
  status : ConnectionStatus
  errorMessage : Option String
  attempted : Bool
  deriving DecidableEq, Repr

/-- Embeds `connect`: sets `connecting` and clears the error, then validates the
scheme; an invalid URL sets `disconnected` with an error message and
returns before any `new WebSocket` is constructed, a valid one attempts
the connection while still `connecting`. -/
def connect (url : String) : ConnectOutcome :=
  if validWsUrl url then
    { status := .connecting, errorMessage := none, attempted := true }
  else
    { status := .disconnected,
      errorMessage := some "Invalid WebSocket URL format. URL must start with ws:// or wss://",
      attempted := false }

/-- Hook options governing reconnection (`UseWebSocketOptions` with its
defaults). -/
structure ReconnectConfig where
  autoReconnect : Bool := true
  reconnectInterval : Nat := 5000
  maxReconnectAttempts : Nat := 10
  deriving DecidableEq, Repr

/-- Connection-lifecycle state of one hook instance:
`status`/`errorMessage` state, the `reconnectAttemptsRef` counter, and
whether a reconnect timeout is pending (`reconnectTimeoutRef`). -/
structure ConnState where
  status : ConnectionStatus
  errorMessage : Option String
  attempts : Nat
  timerScheduled : Bool
  deriving DecidableEq, Repr

/-- The error message `socket.onclose` derives from the close code
(1006 is abnormal closure, 1000 is a normal close that leaves the
message alone). -/
def closeErrorMessage (code : Nat) (prev : Option String) : Option String :=
  if code = 1006 then some "Connection closed abnormally"
  else if code ≠ 1000 then some ("Connection closed (code: " ++ toString code ++ ")")
  else prev

/-- Embeds `socket.onclose`: sets `disconnected`, records the close reason, and
schedules one reconnect timeout when auto-reconnect is on and the
attempt counter is below the maximum; when the counter has reached the
maximum it only records the give-up message and schedules nothing. -/
def onClose (cfg : ReconnectConfig) (code : Nat) (s : ConnState) : ConnState :=
  let s1 : ConnState :=
    { s with status := .disconnected,
             errorMessage := closeErrorMessage code s.errorMessage }
  if cfg.autoReconnect ∧ s1.attempts < cfg.maxReconnectAttempts then
    { s1 with timerScheduled := true }
  else if cfg.maxReconnectAttempts ≤ s1.attempts then
    let msg := "Max reconnection attempts reached (" ++ toString cfg.maxReconnectAttempts ++ ")"
    { s1 with errorMessage := some msg }
  else s1

/-- The reconnect `setTimeout` callback: if a timer is pending, it
fires, increments the attempt counter and calls `connect` again on the
same URL; with no pending timer nothing happens. -/
def reconnectTimerFire (url : String) (s : ConnState) : ConnState :=
  if s.timerScheduled then
    let s1 : ConnState := { s with timerScheduled := false, attempts := s.attempts + 1 }
    let o := connect url
    { s1 with status := o.status, errorMessage := o.errorMessage }
  else s

/-- Embeds `socket.onopen`: sets `connected`, clears the error and resets the
attempt counter. -/
def onOpen (s : ConnState) : ConnState :=
  { s with status := .connected, errorMessage := none, attempts := 0 }

/-- Connection-lifecycle events that can occur without a fresh explicit
`connect` call: the socket closing (with a close code) and a pending
reconnect timeout firing. -/
inductive ConnEvent where
  | close (code : Nat)
  | timer
  deriving DecidableEq, Repr

/-- One lifecycle event step. -/
def connStep (cfg : ReconnectConfig) (url : String) :
    ConnEvent → ConnState → ConnState
  | .close code, s => onClose cfg code s
  | .timer, s => reconnectTimerFire url s

/-- Runs a sequence of lifecycle events. -/
def runConn (cfg : ReconnectConfig) (url : String) :
    List ConnEvent → ConnState → ConnState
  | [], s => s
  | e :: es, s => runConn cfg url es (connStep cfg url e s)

/-! ## Data model: records, sessions, filters (`src/types/log.ts`) -/

inductive LogLevel where
  | INFO | DEBUG | WARNING | ERROR
  deriving DecidableEq, Repr

/-- The `LogMessage` shape from `src/types/log.ts`. -/
structure LogMessage where
  time : String
  level : LogLevel
  message : String
  name : String
  function : String
  line : Nat
  deriving DecidableEq, Repr

/-- The `LogLevelFilter = Record<LogLevel, boolean>` shape: the four-severity
filter mapping. -/
structure LevelFilters where
  INFO : Bool
  DEBUG : Bool
  WARNING : Bool
  ERROR : Bool
  deriving DecidableEq, Repr

/-- Lookup `filters[level]`. -/
def LevelFilters.get (f : LevelFilters) : LogLevel → Bool
  | .INFO => f.INFO
  | .DEBUG => f.DEBUG
  | .WARNING => f.WARNING
  | .ERROR => f.ERROR

/-- The `LogSession` shape from `src/types/log.ts`. -/
structure LogSession where
  id : String
  name : String
  websocketUrl : String
  logs : List LogMessage
  deriving DecidableEq, Repr

/-! ## Filter & Search Engine (`LogDashboard.tsx`, the filtering effect) -/

/-- JavaScript `String.prototype.toLowerCase`, modelled characterwise
(the records in play are ASCII, where the two agree). -/
def toLowerStr (s : String) : String := ⟨s.data.map Char.toLower⟩

/-- JavaScript `hay.includes(pat)`: substring containment. -/
def hasSubList (pat : List Char) : List Char → Bool
  | [] => pat.isEmpty
  | c :: cs => leadsWith pat (c :: cs) || hasSubList pat cs

/-- Case-insensitive containment
`hay.toLowerCase().includes(pat.toLowerCase())`. -/
def includesCI (hay pat : String) : Bool :=
  hasSubList (toLowerStr pat).data (toLowerStr hay).data

/-- The predicate of `activeSession.logs.filter(...)` in the filtering
effect: the record's level is enabled, and the search term is falsy
(empty) or a case-insensitive substring of `message`, `name` or
`function`. -/
def logMatches (filters : LevelFilters) (searchTerm : String)
    (log : LogMessage) : Bool :=
  let matchesLevel := filters.get log.level
  let matchesSearch := searchTerm == ""
    || includesCI log.message searchTerm
    || includesCI log.name searchTerm
    || includesCI log.function searchTerm
  matchesLevel && matchesSearch

/-- The `filtered` list the effect stores with `setFilteredLogs`. -/
def filterLogs (logs : List LogMessage) (filters : LevelFilters)
    (searchTerm : String) : List LogMessage :=
  logs.filter (fun log => logMatches filters searchTerm log)

/-- The `Record<LogLevel, number>` shape: the per-level counters. -/
structure LevelCounts where
  INFO : Nat
  DEBUG : Nat
  WARNING : Nat
  ERROR : Nat
  deriving DecidableEq, Repr

/-- Embeds `counts[log.level]++`. -/
def bumpCount (c : LevelCounts) : LogLevel → LevelCounts
  | .INFO => { c with INFO := c.INFO + 1 }
  | .DEBUG => { c with DEBUG := c.DEBUG + 1 }
  | .WARNING => { c with WARNING := c.WARNING + 1 }
  | .ERROR => { c with ERROR := c.ERROR + 1 }

/-- The `logs.forEach(log => counts[log.level]++)` loop over the full
(unfiltered) active-session record list, starting from all-zero counts. -/
def countLevels (logs : List LogMessage) : LevelCounts :=
  logs.foldl (fun c log => bumpCount c log.level) ⟨0, 0, 0, 0⟩

/-- The whole filtering effect: what `setFilteredLogs` and
`setLevelCounts` receive, as a pure function of the effect's inputs. -/
def computeFiltered (logs : List LogMessage) (filters : LevelFilters)
    (searchTerm : String) : List LogMessage × LevelCounts :=
  (filterLogs logs filters searchTerm, countLevels logs)

/-! ## Session Registry (`LogDashboard.tsx`) -/

/-- The registry part of the dashboard state: the `sessions` array and
`activeSessionId`. -/
structure SessionsState where
  sessions : List LogSession
  activeSessionId : String
  deriving DecidableEq, Repr

/-- The initial dashboard state: one session with id `'default'`, bound
to the `websocketUrl` prop, which is also the active session. -/
def initialSessions (websocketUrl : String) : SessionsState :=
  { sessions := [{ id := "default", name := "Default",
                   websocketUrl := websocketUrl, logs := [] }],
    activeSessionId := "default" }

/-- Embeds `handleNewSession`: appends a session with a fresh id (`nanoid()`,
passed in here) named after the new session count, bound to the current
`websocketUrl` prop, and makes it active. -/
def handleNewSession (st : SessionsState) (freshId : String)
    (websocketUrl : String) : SessionsState :=
  let newSession : LogSession :=
    { id := freshId, name := "Session " ++ toString (st.sessions.length + 1),
      websocketUrl := websocketUrl, logs := [] }
  { sessions := st.sessions ++ [newSession], activeSessionId := freshId }

/-- The `Tabs` `onValueChange={setActiveSessionId}` handler: switching
the active session only rewrites the active id. -/
def setActiveSession (st : SessionsState) (sessionId : String) : SessionsState :=
  { st with activeSessionId := sessionId }

/-- Embeds `handleRemoveSession`: a no-op when only one session remains;
otherwise drops the session with that id and, when it was the active
one, activates the first remaining session (`newSessions[0].id`; the
`none` fallback is unreachable while session ids are distinct, where
the filtered array is nonempty). -/
def handleRemoveSession (st : SessionsState) (sessionId : String) : SessionsState :=
  if st.sessions.length ≤ 1 then st
  else
    let newSessions := st.sessions.filter (fun s => s.id != sessionId)
    let newActive :=
      if sessionId = st.activeSessionId then
        match newSessions.head? with
        | some s => s.id
        | none => st.activeSessionId
      else st.activeSessionId
    { sessions := newSessions, activeSessionId := newActive }

/-- Line 47 of `LogDashboard.tsx`:
`sessions.find(s => s.id === activeSessionId) || sessions[0]`. -/
def activeSession (st : SessionsState) : Option LogSession :=
  match st.sessions.find? (fun s => s.id == st.activeSessionId) with
  | some s => some s
  | none => st.sessions.head?

/-- The registry invariant the claims speak about: at least one session
exists, session ids are distinct, and the active id names an existing
session. -/
def SessionsInv (st : SessionsState) : Prop :=
  st.sessions ≠ [] ∧ (st.sessions.map LogSession.id).Nodup ∧
    st.activeSessionId ∈ st.sessions.map LogSession.id

/-! ## The single WebSocket hook binding (`LogDashboard.tsx` line 49)

`LogDashboard` calls `useWebSocket` exactly once, with
`url: activeSession.websocketUrl`. Inside the hook, `connect` is a
`useCallback` whose only changing dependency is `url`, and
`useEffect(() => { connect(); return cleanup; }, [connect])` closes the
socket and clears the pending reconnect timeout in its cleanup. So a
re-render reconnects exactly when the active session's URL differs from
the previously bound one, and performs no connection action otherwise. -/

/-- Connection side effects of one dashboard re-render. -/
structure ConnectionActions where
  closedSocket : Bool
  clearedReconnectTimer : Bool
  openedUrl : Option String
  deriving DecidableEq, Repr

/-- No connection action. -/
def noActions : ConnectionActions :=
  { closedSocket := false, clearedReconnectTimer := false, openedUrl := none }

/-- The connection side effects of re-rendering the dashboard whose hook
was bound to `oldUrl`, in state `st`: nothing when the active session's
URL is unchanged; otherwise the effect cleanup closes the socket and
clears any reconnect timer, and `connect` runs on the new URL. -/
def rerenderActions (oldUrl : String) (st : SessionsState) : ConnectionActions :=
  match activeSession st with
  | none => noActions
  | some s =>
    if s.websocketUrl = oldUrl then noActions
    else { closedSocket := true, clearedReconnectTimer := true,
           openedUrl := some s.websocketUrl }

/-! ## Level-filter persistence (`LogDashboard.tsx` lines 155-170) -/

/-- The fixed localStorage key. -/
def storageKey : String := "logLevelFilters"

/-- The initial `levelFilters` state: all four severities enabled. -/
def defaultLevelFilters : LevelFilters :=
  { INFO := true, DEBUG := true, WARNING := true, ERROR := true }

/-- The JSON image of a well-formed filter mapping (what
`JSON.stringify(levelFilters)` writes under `storageKey` on every
filter change). -/
def levelFiltersToJs (f : LevelFilters) : JsValue :=
  .obj [("INFO", .bool f.INFO), ("DEBUG", .bool f.DEBUG),
        ("WARNING", .bool f.WARNING), ("ERROR", .bool f.ERROR)]

/-- The startup load effect. `stored` is the outcome of
`localStorage.getItem(storageKey)` composed with `JSON.parse`:
`none` when the key is absent (`getItem` returned `null`), `some none`
when `JSON.parse` threw (the `catch` ignores it), `some (some v)` when
it parsed to `v` — which is installed by `setLevelFilters` as-is,
without any shape validation. `current` is the filter state before the
effect (the all-enabled default at startup). -/
def loadSavedFilters (current : JsValue) (stored : Option (Option JsValue)) :
    JsValue :=
  match stored with
  | none => current
  | some none => current
  | some (some v) => v

/-- Whether a JSON value is a mapping that contains all four severities,
each mapped to a boolean. -/
def isCompleteFilterMap : JsValue → Bool
  | .obj fields =>
    ["INFO", "DEBUG", "WARNING", "ERROR"].all fun k =>
      match fields.lookup k with
      | some (.bool _) => true
      | _ => false
  | _ => false

/-! ## Concrete sample values used by closed counterexamples and
witnesses -/

/-- A well-formed sample record. -/
def sampleLog : LogMessage :=
  { time := "2024-01-01T00:00:00.000Z", level := .INFO, message := "abc",
    name := "app", function := "main", line := 7 }

/-- A sample receipt timestamp. -/
def sampleNow : String := "2024-01-01T00:00:00.000Z"

/-- A sample undecodable payload. -/
def sampleRaw : String := "not json"

/-- A paused hook state with nothing queued or visible. -/
def pausedWire : WireState :=
  { paused := true, processing := false, buffer := [], logs := [] }

/-- A paused hook state with two queued records and one visible record. -/
def pausedWireQueued : WireState :=
  { paused := true, processing := false,
    buffer := [.str "queued1", .str "queued2"], logs := [.str "old"] }

/-- The initial dashboard registry bound to `ws://a`. -/
def dashA : SessionsState := initialSessions "ws://a"

/-- The registry after creating a second session while the
`websocketUrl` prop is `ws://b` (the new session becomes active). -/
def dashAB : SessionsState := handleNewSession dashA "s2" "ws://b"

/-- A hook configuration with `maxReconnectAttempts = 2` (other options
at their defaults). -/
def cfg2 : ReconnectConfig := { maxReconnectAttempts := 2 }

/-- A freshly connected lifecycle state. -/
def freshConn : ConnState :=
  { status := .connected, errorMessage := none, attempts := 0,
    timerScheduled := false }

/-- The lifecycle state after two failed reconnect cycles and a third
close under `cfg2`: two close/timer rounds and a final close. -/
def exhaustedConn : ConnState :=
  runConn cfg2 "ws://h" [.close 1006, .timer, .close 1006, .timer, .close 1006]
    freshConn

/-! # Theorems -/

/-- C10: a frame whose payload is syntactically valid JSON is forwarded
to the buffer exactly as parsed, whatever its shape — `onmessage` casts
the parse result without validating the `LogMessage` fields — and the
placeholder is synthesized exactly when `JSON.parse` throws. -/
theorem valid_json_passes_through_unvalidated :
    ∀ (v : JsValue) (now raw : String),
      forwardedOnMessage false (some v) now raw = [v] ∧
      forwardedOnMessage false none now raw = [placeholderRecord now raw] := by
  intro v now raw
  exact ⟨rfl, rfl⟩

/-- C3 counterexample: for a concrete undecodable frame, the single
forwarded placeholder carries source identity `name = "websocket"`,
`function = "onmessage"` — not `source_name = "connection"`,
`source_function = "on_receive"` as claimed — and a frame arriving
while paused forwards nothing at all. -/
theorem placeholder_identity_counterexample :
    forwardedOnMessage false none sampleNow sampleRaw =
      [placeholderRecord sampleNow sampleRaw] ∧
    (placeholderRecord sampleNow sampleRaw).getField "name" =
      some (.str "websocket") ∧
    (placeholderRecord sampleNow sampleRaw).getField "name" ≠
      some (.str "connection") ∧
    (placeholderRecord sampleNow sampleRaw).getField "function" =
      some (.str "onmessage") ∧
    (placeholderRecord sampleNow sampleRaw).getField "function" ≠
      some (.str "on_receive") ∧
    forwardedOnMessage true none sampleNow sampleRaw = [] := by
  decide

/-- C3 (amended): for every frame received while not paused whose
payload fails to decode, exactly one placeholder ERROR-level record is
forwarded, timestamped at receipt time, its message embedding the raw
payload, with the fixed source identity `name = "websocket"`,
`function = "onmessage"`, `line = 0`. -/
theorem decode_failure_placeholder_shape :
    ∀ now raw : String,
      forwardedOnMessage false none now raw = [placeholderRecord now raw] ∧
      (placeholderRecord now raw).getField "time" = some (.str now) ∧
      (placeholderRecord now raw).getField "level" = some (.str "ERROR") ∧
      (placeholderRecord now raw).getField "message" =
        some (.str ("Failed to parse log: " ++ raw)) ∧
      (placeholderRecord now raw).getField "name" = some (.str "websocket") ∧
      (placeholderRecord now raw).getField "function" = some (.str "onmessage") ∧
      (placeholderRecord now raw).getField "line" = some (.num 0) := by
  intro now raw
  refine ⟨rfl, ?_, ?_, ?_, ?_, ?_, ?_⟩ <;> rfl

/-- C5: `connect` on a URL starting with `ws://` or `wss://` ends the
synchronous call in state `connecting` with the connection attempted;
on any other URL it ends in `disconnected`, surfaces an error message,
and never constructs a WebSocket. (Both `setStatus` calls of the invalid
path happen in one synchronous body, so only the final `disconnected`
state is observable.) -/
theorem connect_validates_scheme :
    ∀ url : String,
      (validWsUrl url = true →
        connect url = { status := .connecting, errorMessage := none,
                        attempted := true }) ∧
      (validWsUrl url = false →
        connect url =
          { status := .disconnected,
            errorMessage := some "Invalid WebSocket URL format. URL must start with ws:// or wss://",
            attempted := false }) := by
  intro url
  constructor <;> intro h <;> simp [connect, h]

/-- Witness for C5: the default endpoint connects; an `http://` endpoint
is rejected without an attempt. -/
theorem connect_validates_scheme_witness :
    connect "ws://localhost:8000/logs/ws/logs" =
      { status := .connecting, errorMessage := none, attempted := true } ∧
    connect "http://localhost:8000" =
      { status := .disconnected,
        errorMessage := some "Invalid WebSocket URL format. URL must start with ws:// or wss://",
        attempted := false } :=
  ⟨(connect_validates_scheme "ws://localhost:8000/logs/ws/logs").1 (by decide),
   (connect_validates_scheme "http://localhost:8000").2 (by decide)⟩

/-- C4 counterexample: a one-character query (shorter than 2 characters)
is applied by the code rather than ignored — with every level enabled
and query `"z"`, the sample record is filtered out even though the
claim's inclusion rule admits it. -/
theorem short_query_counterexample :
    ("z" : String).length < 2 ∧
    defaultLevelFilters.get sampleLog.level = true ∧
    filterLogs [sampleLog] defaultLevelFilters "z" = [] := by
  decide

/-- C4 (amended): a record is included in the filtered list iff it is in
the record list, its severity's filter is enabled, and the query is
empty — not merely shorter than 2 characters — or a case-insensitive
substring of its message, source name or source function. -/
theorem filter_inclusion_rule :
    ∀ (logs : List LogMessage) (f : LevelFilters) (q : String)
      (r : LogMessage),
      r ∈ filterLogs logs f q ↔
        r ∈ logs ∧ f.get r.level = true ∧
          (q = "" ∨ includesCI r.message q = true ∨
            includesCI r.name q = true ∨ includesCI r.function q = true) := by
  intro logs f q r
  simp only [filterLogs, List.mem_filter, logMatches, Bool.and_eq_true,
    Bool.or_eq_true, beq_iff_eq, and_assoc, or_assoc]

/-- Helper: the per-level counting fold adds exactly the list length to
the running total of the four counters. -/
theorem bumpCount_foldl_sum (logs : List LogMessage) :
    ∀ c : LevelCounts,
      (logs.foldl (fun c log => bumpCount c log.level) c).INFO +
        (logs.foldl (fun c log => bumpCount c log.level) c).DEBUG +
        (logs.foldl (fun c log => bumpCount c log.level) c).WARNING +
        (logs.foldl (fun c log => bumpCount c log.level) c).ERROR =
      c.INFO + c.DEBUG + c.WARNING + c.ERROR + logs.length := by
  induction logs with
  | nil => intro c; simp
  | cons log rest ih =>
    intro c
    simp only [List.foldl_cons, List.length_cons]
    rw [ih (bumpCount c log.level)]
    cases hl : log.level <;> simp [bumpCount, hl] <;> omega

/-- C1 counterexample: with the hook paused (empty queue, empty visible
list), an arriving well-formed record leaves the state exactly as it
was — `onmessage` returns before touching the queue — so the record is
never appended to the pending queue, and consequently can never be
flushed after resume. -/
theorem paused_arrival_dropped_counterexample :
    onMessage pausedWire (some (.str "hello")) sampleNow sampleRaw =
      pausedWire ∧
    pausedWire.buffer = [] ∧ pausedWire.logs = [] := by
  decide

/-- C1 (amended): records arriving while paused are discarded entirely
(the message handler returns without enqueuing them); flushing is
suppressed while the paused flag is set, so records already in the
pending queue stay out of the visible list; and once unpaused, the next
flush moves the whole pending queue into the visible list preserving
arrival order, emptying the queue. -/
theorem paused_drop_and_resume_flush :
    ∀ (s : WireState) (parsed : Option JsValue) (now raw : String),
      s.paused = true → s.processing = false →
      onMessage s parsed now raw = s ∧
      processLogBuffer s = s ∧
      (processLogBuffer (togglePauseW s)).logs = s.buffer ++ s.logs ∧
      (processLogBuffer (togglePauseW s)).buffer = [] := by
  intro s parsed now raw hp hproc
  refine ⟨?_, ?_, ?_, ?_⟩
  · simp [onMessage, hp]
  · simp [processLogBuffer, hp]
  · cases hb : s.buffer with
    | nil => simp [processLogBuffer, togglePauseW, hp, hproc, hb]
    | cons a t => simp [processLogBuffer, togglePauseW, hp, hproc, hb]
  · cases hb : s.buffer with
    | nil => simp [processLogBuffer, togglePauseW, hp, hproc, hb]
    | cons a t => simp [processLogBuffer, togglePauseW, hp, hproc, hb]

/-- Witness for the amended C1 at a paused state with two queued records
and one visible record. -/
theorem paused_drop_and_resume_flush_witness :
    onMessage pausedWireQueued (some (.str "hello")) sampleNow sampleRaw =
      pausedWireQueued ∧
    processLogBuffer pausedWireQueued = pausedWireQueued ∧
    (processLogBuffer (togglePauseW pausedWireQueued)).logs =
      pausedWireQueued.buffer ++ pausedWireQueued.logs ∧
    (processLogBuffer (togglePauseW pausedWireQueued)).buffer = [] :=
  paused_drop_and_resume_flush pausedWireQueued (some (.str "hello"))
    sampleNow sampleRaw rfl rfl

/-- C9 counterexample: the stored string `"{}"` is syntactically valid
JSON, so the load effect installs the parsed empty object as the filter
state instead of ignoring it — and the result does not contain the four
severities, unlike the all-enabled default. -/
theorem corrupt_filters_installed_counterexample :
    loadSavedFilters (levelFiltersToJs defaultLevelFilters)
      (some (some (.obj []))) = .obj [] ∧
    isCompleteFilterMap (.obj []) = false ∧
    isCompleteFilterMap (levelFiltersToJs defaultLevelFilters) = true := by
  decide

/-- C9 (amended): filter preferences live under the fixed key
`"logLevelFilters"` (rewritten on every change as the JSON image of the
current mapping, which always contains all four severities as
booleans); at startup an absent key or a value on which `JSON.parse`
throws is ignored, keeping the all-enabled default, while any
successfully parsed value is installed as-is without shape validation. -/
theorem filter_persistence_load :
    ∀ v : JsValue,
      storageKey = "logLevelFilters" ∧
      loadSavedFilters (levelFiltersToJs defaultLevelFilters) none =
        levelFiltersToJs defaultLevelFilters ∧
      loadSavedFilters (levelFiltersToJs defaultLevelFilters) (some none) =
        levelFiltersToJs defaultLevelFilters ∧
      loadSavedFilters (levelFiltersToJs defaultLevelFilters) (some (some v)) =
        v ∧
      (∀ f : LevelFilters, isCompleteFilterMap (levelFiltersToJs f) = true) := by
  intro v
  refine ⟨rfl, rfl, rfl, rfl, ?_⟩
  intro f
  rfl

/-- C2 counterexample: from the reachable two-session state (default
session on `ws://a`, a created second session on `ws://b`, hook bound
to `ws://b`), switching the active session back to `default` closes the
live socket, clears any pending reconnect timer, and opens a new
connection to `ws://a` — the switch does not leave the underlying
connection unchanged. -/
theorem session_switch_reconnects_counterexample :
    rerenderActions "ws://b" (setActiveSession dashAB "default") =
      { closedSocket := true, clearedReconnectTimer := true,
        openedUrl := some "ws://a" } ∧
    rerenderActions "ws://b" (setActiveSession dashAB "default") ≠
      noActions := by
  decide

/-- C2 (amended): the dashboard binds one shared `useWebSocket` hook to
the active session's URL (there is no per-session Connection Manager);
switching the active session to a session whose URL equals the
currently bound one performs no connection action, while switching to a
session with a different URL closes the current socket, clears any
pending reconnect timer, and initiates a connection to the new URL. -/
theorem session_switch_connection_effect :
    ∀ (st : SessionsState) (sessionId oldUrl : String) (s : LogSession),
      activeSession (setActiveSession st sessionId) = some s →
      (s.websocketUrl = oldUrl →
        rerenderActions oldUrl (setActiveSession st sessionId) = noActions) ∧
      (s.websocketUrl ≠ oldUrl →
        rerenderActions oldUrl (setActiveSession st sessionId) =
          { closedSocket := true, clearedReconnectTimer := true,
            openedUrl := some s.websocketUrl }) := by
  intro st sessionId oldUrl s hact
  constructor <;> intro h <;> simp [rerenderActions, hact, h]

/-- Witness for the amended C2: on the concrete two-session state, a
switch to the same URL is a no-op and a switch to a different URL
reconnects. -/
theorem session_switch_connection_effect_witness :
    rerenderActions "ws://b" (setActiveSession dashAB "default") =
      { closedSocket := true, clearedReconnectTimer := true,
        openedUrl := some "ws://a" } ∧
    rerenderActions "ws://a" (setActiveSession dashAB "default") =
      noActions :=
  ⟨(session_switch_connection_effect dashAB "default" "ws://b"
      { id := "default", name := "Default", websocketUrl := "ws://a",
        logs := [] } (by decide)).2 (by decide),
   (session_switch_connection_effect dashAB "default" "ws://a"
      { id := "default", name := "Default", websocketUrl := "ws://a",
        logs := [] } (by decide)).1 (by decide)⟩

/-- C8: the per-level counts are computed over the full unfiltered
active-session record list — the same whatever the level filters and
search query are — and the four counts sum to the number of records. -/
theorem counts_over_full_set_sum_to_total :
    ∀ (logs : List LogMessage) (f f' : LevelFilters) (q q' : String),
      (computeFiltered logs f q).2 = countLevels logs ∧
      (computeFiltered logs f q).2 = (computeFiltered logs f' q').2 ∧
      (countLevels logs).INFO + (countLevels logs).DEBUG +
        (countLevels logs).WARNING + (countLevels logs).ERROR =
        logs.length := by
  intro logs f f' q q'
  refine ⟨rfl, rfl, ?_⟩
  have h := bumpCount_foldl_sum logs ⟨0, 0, 0, 0⟩
  simpa [countLevels] using h

/-- Helper: once the attempt counter has reached the maximum with no
timer pending and the socket closed, one lifecycle event keeps it so. -/
theorem reconnectExhausted_step (cfg : ReconnectConfig) (url : String)
    (e : ConnEvent) (s : ConnState)
    (h1 : cfg.maxReconnectAttempts ≤ s.attempts)
    (h2 : s.timerScheduled = false) (h3 : s.status = .disconnected) :
    cfg.maxReconnectAttempts ≤ (connStep cfg url e s).attempts ∧
    (connStep cfg url e s).timerScheduled = false ∧
    (connStep cfg url e s).status = .disconnected := by
  cases e with
  | close code =>
    simp only [connStep, onClose]
    split_ifs with hc1
    · exfalso
      have := hc1.2
      omega
    · exact ⟨h1, h2, rfl⟩
  | timer =>
    simp only [connStep, reconnectTimerFire, h2]
    simp [h1, h2, h3]

/-- Helper: the exhausted configuration is preserved along any sequence
of close and timer events. -/
theorem reconnectExhausted_runConn (cfg : ReconnectConfig) (url : String) :
    ∀ (evs : List ConnEvent) (s : ConnState),
      cfg.maxReconnectAttempts ≤ s.attempts → s.timerScheduled = false →
      s.status = .disconnected →
      (runConn cfg url evs s).status = .disconnected ∧
      (runConn cfg url evs s).timerScheduled = false := by
  intro evs
  induction evs with
  | nil => intro s h1 h2 h3; exact ⟨h3, h2⟩
  | cons e es ih =>
    intro s h1 h2 h3
    have hstep := reconnectExhausted_step cfg url e s h1 h2 h3
    exact ih _ hstep.1 hstep.2.1 hstep.2.2

/-- C6: with auto-reconnect on, a close while the attempt counter is
below `maxReconnectAttempts` leaves the state `disconnected` with
exactly one reconnect timeout pending, and that timeout's firing
increments the counter; once the counter has reached the maximum (and
no timer is pending), no sequence of further close or timer events ever
schedules a reconnect again or moves the state off `disconnected` — only
a fresh explicit `connect` could. -/
theorem reconnect_attempt_policy :
    ∀ (cfg : ReconnectConfig) (url : String) (code : Nat) (s : ConnState),
      cfg.autoReconnect = true →
      (s.attempts < cfg.maxReconnectAttempts →
        (onClose cfg code s).status = .disconnected ∧
        (onClose cfg code s).timerScheduled = true ∧
        (onClose cfg code s).attempts = s.attempts ∧
        (reconnectTimerFire url (onClose cfg code s)).attempts =
          s.attempts + 1 ∧
        (reconnectTimerFire url (onClose cfg code s)).timerScheduled =
          false) ∧
      (cfg.maxReconnectAttempts ≤ s.attempts → s.timerScheduled = false →
        s.status = .disconnected →
        ∀ evs : List ConnEvent,
          (runConn cfg url evs s).status = .disconnected ∧
          (runConn cfg url evs s).timerScheduled = false) := by
  intro cfg url code s hA
  constructor
  · intro hlt
    simp [onClose, reconnectTimerFire, hA, hlt]
  · intro hge htimer hstatus evs
    exact reconnectExhausted_runConn cfg url evs s hge htimer hstatus

/-- Witness for C6 at the spec's scenario: `maxReconnectAttempts = 2`,
abnormal closes; the first close schedules a timer whose firing makes
the counter 1, and after two failed cycles plus a third close, further
closes and timer events never schedule again and stay `disconnected`. -/
theorem reconnect_attempt_policy_witness :
    (onClose cfg2 1006 freshConn).timerScheduled = true ∧
    (reconnectTimerFire "ws://h" (onClose cfg2 1006 freshConn)).attempts = 1 ∧
    exhaustedConn.attempts = 2 ∧
    (runConn cfg2 "ws://h" [.close 1006, .timer, .close 1006] exhaustedConn).status =
      .disconnected ∧
    (runConn cfg2 "ws://h" [.close 1006, .timer, .close 1006] exhaustedConn).timerScheduled =
      false := by
  have h := reconnect_attempt_policy cfg2 "ws://h" 1006 freshConn (by decide)
  have h1 := h.1 (by decide)
  have h2 := (reconnect_attempt_policy cfg2 "ws://h" 1006 exhaustedConn
    (by decide)).2 (by decide) (by decide) (by decide)
    [.close 1006, .timer, .close 1006]
  exact ⟨h1.2.1, h1.2.2.2.1, by decide, h2.1, h2.2⟩

/-- Helper: a list of at least two elements with pairwise-distinct ids
keeps at least one element after removing the sessions carrying one
given id. -/
theorem filter_id_ne_nonempty (l : List LogSession) (a : String)
    (hnd : (l.map LogSession.id).Nodup) (hlen : 2 ≤ l.length) :
    l.filter (fun s => s.id != a) ≠ [] := by
  intro hnil
  have hall : ∀ x ∈ l, x.id = a := by
    intro x hx
    have := List.filter_eq_nil_iff.mp hnil x hx
    simpa using this
  match l, hlen with
  | x :: y :: t, _ =>
    have hx : x.id = a := hall x (by simp)
    have hy : y.id = a := hall y (by simp)
    have hxy : x.id ≠ y.id := by
      simp only [List.map_cons, List.nodup_cons] at hnd
      intro hh
      exact hnd.1 (by rw [hh]; exact List.mem_cons_self _ _)
    exact hxy (hx.trans hy.symm)

/-- C7: the registry invariant — at least one session, distinct session
ids, active id naming an existing session — holds in the initial state
and is preserved by every registry operation (creation with a fresh id,
switching to an existing id, removal); removing the sole remaining
session is a no-op, the session list never becomes empty, and removing
the active session re-activates the first remaining session. -/
theorem remove_session_invariant :
    ∀ (st : SessionsState) (sessionId url freshId : String),
      SessionsInv st →
      SessionsInv (initialSessions url) ∧
      (freshId ∉ st.sessions.map LogSession.id →
        SessionsInv (handleNewSession st freshId url)) ∧
      (∀ id2, id2 ∈ st.sessions.map LogSession.id →
        SessionsInv (setActiveSession st id2)) ∧
      SessionsInv (handleRemoveSession st sessionId) ∧
      (st.sessions.length = 1 → handleRemoveSession st sessionId = st) ∧
      (handleRemoveSession st sessionId).sessions ≠ [] ∧
      (∀ s', 1 < st.sessions.length → sessionId = st.activeSessionId →
        (st.sessions.filter (fun s => s.id != sessionId)).head? = some s' →
        (handleRemoveSession st sessionId).activeSessionId = s'.id) := by
  intro st sid url freshId hinv
  obtain ⟨hne, hnd, hmem⟩ := hinv
  refine ⟨?_, ?_, ?_, ?_⟩
  · exact ⟨by simp [initialSessions], by simp [initialSessions],
      by simp [initialSessions]⟩
  · intro hfresh
    refine ⟨by simp [handleNewSession], ?_, by simp [handleNewSession]⟩
    simp only [handleNewSession, List.map_append, List.map_cons,
      List.map_nil]
    exact List.Nodup.append hnd (List.nodup_singleton freshId)
      (by simpa [List.disjoint_right] using hfresh)
  · intro id2 hid2
    exact ⟨hne, hnd, hid2⟩
  by_cases hlen : st.sessions.length ≤ 1
  · rw [handleRemoveSession, if_pos hlen]
    refine ⟨⟨hne, hnd, hmem⟩, fun _ => rfl, hne, ?_⟩
    intro s' hgt _ _
    omega
  · have hlen2 : 2 ≤ st.sessions.length := by omega
    rw [handleRemoveSession, if_neg hlen]
    have hL : st.sessions.filter (fun s => s.id != sid) ≠ [] :=
      filter_id_ne_nonempty st.sessions sid hnd hlen2
    have hndL : ((st.sessions.filter (fun s => s.id != sid)).map
        LogSession.id).Nodup :=
      List.Nodup.sublist (List.Sublist.map LogSession.id
        (List.filter_sublist st.sessions)) hnd
    refine ⟨?_, ?_, ?_, ?_⟩
    · refine ⟨hL, hndL, ?_⟩
      by_cases hact : sid = st.activeSessionId
      · simp only [if_pos hact]
        obtain ⟨a, t, hat⟩ := List.exists_cons_of_ne_nil hL
        rw [hat]
        simp
      · simp only [if_neg hact]
        obtain ⟨x, hx, hxid⟩ := List.exists_of_mem_map hmem
        have hxL : x ∈ st.sessions.filter (fun s => s.id != sid) := by
          rw [List.mem_filter]
          refine ⟨hx, ?_⟩
          simp only [bne_iff_ne, ne_eq]
          rw [hxid]
          exact fun hh => hact hh.symm
        exact hxid ▸ List.mem_map_of_mem LogSession.id hxL
    · intro h1
      omega
    · exact hL
    · intro s' hgt hact hhead
      simp only [if_pos hact, hhead]

/-- Witness for C7: removing the active second session of the concrete
two-session registry restores a singleton registry whose active session
is `default`; removing from the singleton is a no-op. -/
theorem remove_session_invariant_witness :
    SessionsInv (handleRemoveSession dashAB "s2") ∧
    (handleRemoveSession dashAB "s2").sessions ≠ [] ∧
    (handleRemoveSession dashAB "s2").activeSessionId = "default" ∧
    handleRemoveSession (handleRemoveSession dashAB "s2") "default" =
      handleRemoveSession dashAB "s2" := by
  have hinv : SessionsInv dashAB := ⟨by decide, by decide, by decide⟩
  have h := remove_session_invariant dashAB "s2" "ws://a" "s3" hinv
  have hD := h.2.2.2.1
  have h2 := remove_session_invariant (handleRemoveSession dashAB "s2")
    "default" "ws://a" "s3" hD
  refine ⟨hD, h.2.2.2.2.2.1, ?_, h2.2.2.2.2.1 (by decide)⟩
  have := h.2.2.2.2.2.2
    { id := "default", name := "Default", websocketUrl := "ws://a",
      logs := [] } (by decide) (by decide) (by decide)
  simpa using this

end LogCompass
